import Mathlib

/-!
Verification development for the brainy conversational orchestration engine.

The Python source is shallowly embedded: each manager class becomes a
structure holding its mutable fields, and each method becomes a pure
function from the old state (plus the outcomes of external collaborator
calls, passed as explicit `Except`/`Bool` arguments) to the new state.
Python dicts are modelled as insertion-ordered association lists with
unique keys, matching Python 3.7+ dict semantics (updates keep position,
new keys append at the end).
-/

set_option maxRecDepth 16384

namespace Brainy

/-- Python `str.lower()` (ASCII case folding, which is all the ids in
this system use); defined through `List.map` so the kernel can
evaluate it. -/
def pyLower (s : String) : String := String.mk (s.data.map Char.toLower)

/-- Python `text.startswith(p)`; defined through `List.isPrefixOf` so
the kernel can evaluate it. -/
def strStarts (s p : String) : Bool := p.data.isPrefixOf s.data

/-- Worker for `pySplitWs`: `cur` is the reversed chunk read so far. -/
def pySplitAux : List Char → List Char → List String
  | [], cur => if cur.isEmpty then [] else [String.mk cur.reverse]
  | c :: rest, cur =>
    if c.isWhitespace then
      if cur.isEmpty then pySplitAux rest []
      else String.mk cur.reverse :: pySplitAux rest []
    else pySplitAux rest (c :: cur)

/-- Python `str.split()` with no argument: split on runs of whitespace,
discarding empty chunks. -/
def pySplitWs (s : String) : List String := pySplitAux s.data []

/-- Python `d.get(k)`: first binding for key `k` in an association list. -/
def dlookup {α : Type} : List (String × α) → String → Option α
  | [], _ => none
  | (k2, v) :: rest, k => if k2 = k then some v else dlookup rest k

/-- Python `d[k] = v`: replace in place if the key exists, else append. -/
def dset {α : Type} : List (String × α) → String → α → List (String × α)
  | [], k, v => [(k, v)]
  | (k2, v2) :: rest, k, v =>
    if k2 = k then (k2, v) :: rest else (k2, v2) :: dset rest k v

/-- Python `del d[k]` on a unique-key dict. -/
def ddelete {α : Type} : List (String × α) → String → List (String × α)
  | [], _ => []
  | (k2, v2) :: rest, k =>
    if k2 = k then ddelete rest k else (k2, v2) :: ddelete rest k

/-- `ConversationMessage` from `memory_manager.py`.  The open `metadata`
mapping is modelled by its fields actually read by the engine
(`user_id`, `platform`, `conversation_id`, `vector_id`); `none` stands
for an absent key and `""` for a present falsy value.  Timestamps are
abstracted to `Nat`. -/
structure ConversationMessage where
  role : String
  content : String
  userId : Option String
  platform : Option String
  conversationId : Option String
  vectorId : Option String
  messageId : String
  timestamp : Nat
deriving DecidableEq, Repr

/-- One entry of the semantic index: the metadata written by
`MemoryManager.add_message` for a `user`/`assistant` message. -/
structure VectorDoc where
  docId : String
  text : String
  conversationId : String
  role : String
  userId : Option String
  platform : Option String
  timestamp : Nat
deriving DecidableEq, Repr

/-- State of `MemoryManager`: `_messages`, `_conversation_messages`, and
the contents of the delegated vector store (held behind
`self._vector_store` in the source). -/
structure MemoryManager where
  messages : List (String × ConversationMessage)
  conversationMessages : List (String × List String)
  vectorStore : List VectorDoc
deriving DecidableEq, Repr

def emptyMemoryManager : MemoryManager :=
  { messages := [], conversationMessages := [], vectorStore := [] }

/-- The conversation id a message is filed under in `add_message`:
`metadata.get("conversation_id")` if truthy, else the
`f"{platform}:{user_id}"` fallback when both are truthy, else an error. -/
def conversationIdOf (msg : ConversationMessage) : Option String :=
  let c := msg.conversationId.getD ""
  if c ≠ "" then some c
  else
    let u := msg.userId.getD ""
    let p := msg.platform.getD ""
    if u ≠ "" ∧ p ≠ "" then some (p ++ ":" ++ u) else none

/-- `MemoryManager.add_message`.  `vsFails` is the outcome of the
delegated `vector_store.add_document` call: `true` means that call
raised, which the source catches and logs so the append still succeeds.
On success the stored message object gains `metadata["vector_id"]`
(the returned id, which is the supplied `document_id`). -/
def addMessage (st : MemoryManager) (msg : ConversationMessage) (vsFails : Bool) :
    Except String (String × MemoryManager) :=
  match conversationIdOf msg with
  | none =>
    Except.error "Message must have either conversation_id or both user_id and platform in metadata"
  | some conversationId =>
    let messageId := msg.messageId
    let messages1 := dset st.messages messageId msg
    let convs :=
      match dlookup st.conversationMessages conversationId with
      | none => dset st.conversationMessages conversationId [messageId]
      | some ids => dset st.conversationMessages conversationId (ids ++ [messageId])
    if msg.role = "user" ∨ msg.role = "assistant" then
      if vsFails then
        Except.ok (messageId,
          { messages := messages1, conversationMessages := convs,
            vectorStore := st.vectorStore })
      else
        let doc : VectorDoc :=
          { docId := messageId, text := msg.content, conversationId := conversationId,
            role := msg.role, userId := msg.userId, platform := msg.platform,
            timestamp := msg.timestamp }
        let msg2 := { msg with vectorId := some messageId }
        Except.ok (messageId,
          { messages := dset messages1 messageId msg2, conversationMessages := convs,
            vectorStore := st.vectorStore ++ [doc] })
    else
      Except.ok (messageId,
        { messages := messages1, conversationMessages := convs,
          vectorStore := st.vectorStore })

/-- The `try: add_message(...) except: pass` call sites
(`ModuleManager.process_command`, `ConversationHandler.process_user_message`):
the new memory state, with a raised `ValueError` swallowed. -/
def addMessageState (st : MemoryManager) (msg : ConversationMessage) (vsFails : Bool) :
    MemoryManager :=
  match addMessage st msg vsFails with
  | Except.ok r => r.2
  | Except.error _ => st

/-- Stable insertion of a message into a list ordered by timestamp,
placed after every element with an earlier-or-equal timestamp. -/
def insertByTs (x : ConversationMessage) : List ConversationMessage → List ConversationMessage
  | [] => [x]
  | y :: ys => if y.timestamp ≤ x.timestamp then y :: insertByTs x ys else x :: y :: ys

/-- Python `messages.sort(key=lambda msg: msg.timestamp)`: a stable sort
by timestamp. -/
def sortByTimestamp (msgs : List ConversationMessage) : List ConversationMessage :=
  msgs.foldl (fun acc m => insertByTs m acc) []

/-- `MemoryManager.get_conversation_history`: resolve the stored id list
against `_messages`, sort by timestamp, and apply the Python `[-limit:]`
tail slice (which returns the whole list when `limit` is `0`). -/
def getConversationHistory (st : MemoryManager) (conversationId : String)
    (limit : Option Nat) : List ConversationMessage :=
  match dlookup st.conversationMessages conversationId with
  | none => []
  | some messageIds =>
    let messages := messageIds.filterMap (fun mid => dlookup st.messages mid)
    let sorted := sortByTimestamp messages
    match limit with
    | none => sorted
    | some n => if n = 0 then sorted else sorted.drop (sorted.length - n)

/-- `MemoryManager.clear_conversation`.  `vsDeleteFails` is the outcome of
the delegated `delete_by_metadata` call (caught and logged on failure).
Note the source erases the whole `_messages` dict (`self._messages = {}`),
not just the cleared conversation's entries. -/
def clearConversation (st : MemoryManager) (conversationId : String)
    (vsDeleteFails : Bool) : MemoryManager :=
  if (dlookup st.conversationMessages conversationId).isSome then
    { messages := [],
      conversationMessages := dset st.conversationMessages conversationId [],
      vectorStore :=
        if vsDeleteFails then st.vectorStore
        else st.vectorStore.filter (fun d => d.conversationId != conversationId) }
  else st

/-- One result of the delegated `vector_store.query` call: the document
text plus the metadata fields `search_similar_messages` reads back. -/
structure QueryDoc where
  text : String
  metaMessageId : Option String
  metaRole : Option String
  metaConversationId : Option String
  metaPlatform : Option String
  metaTimestamp : Option Nat
deriving DecidableEq, Repr

/-- The role strings accepted by the `MessageRole` enum; any other value
makes the per-document conversion raise, and that document is skipped. -/
def validRole (r : String) : Bool :=
  r = "user" || r = "assistant" || r = "system"

/-- The per-document conversion loop body of `search_similar_messages`:
prefer the in-memory message for a known `message_id`, else reconstruct
one from the document metadata (`freshId` stands for the uuid generated
when the document carries no `message_id`, `now` for the timestamp
fallback). -/
def docToMessage (st : MemoryManager) (now : Nat) (freshId : String)
    (doc : QueryDoc) : Option ConversationMessage :=
  let fromDoc : String → Option ConversationMessage := fun mid =>
    let roleStr := doc.metaRole.getD "user"
    if validRole roleStr then
      some { role := roleStr, content := doc.text, userId := none,
             platform := doc.metaPlatform, conversationId := doc.metaConversationId,
             vectorId := none, messageId := mid,
             timestamp := doc.metaTimestamp.getD now }
    else none
  match doc.metaMessageId with
  | some mid =>
    match dlookup st.messages mid with
    | some m => some m
    | none => fromDoc mid
  | none => fromDoc freshId

/-- `MemoryManager.search_similar_messages`.  `queryOutcome` is the
outcome of the delegated `vector_store.query` call; the whole body sits
in a `try`/`except` that degrades any raised exception to `[]`. -/
def searchSimilarMessages (st : MemoryManager)
    (queryOutcome : Except String (List QueryDoc)) (now : Nat) (freshId : String) :
    List ConversationMessage :=
  match queryOutcome with
  | Except.error _ => []
  | Except.ok docs => docs.filterMap (docToMessage st now freshId)

/-- The type of a registered command handler
(`async def handler(message, args) -> Optional[str]`): it may raise
(`Except.error`) or return an optional response. -/
abbrev CommandHandler :=
  ConversationMessage → List String → Except String (Option String)

/-- A `Module` from `base.py`: id, display name, enabled flag, compiled
trigger patterns (each regex abstracted to its match predicate on the
message text), the registered command table, and the module's free-text
`process_message` behaviour. -/
structure BotModule where
  moduleId : String
  name : String
  isEnabled : Bool
  triggerPatterns : List (String → Bool)
  commands : List (String × CommandHandler)
  processMessageFn :
    ConversationMessage → List (String × String) → Except String (Option String)

/-- `Module.matches_message`: does any trigger pattern match the text? -/
def matchesMessage (m : BotModule) (messageText : String) : Bool :=
  m.triggerPatterns.any (fun p => p messageText)

/-- State of `ModuleManager` (`base.py`): `_modules` keyed by module id
and the derived `_command_handlers` table mapping a command name to the
owning module's id and handler. -/
structure ModuleManager where
  modules : List (String × BotModule)
  commandHandlers : List (String × (String × CommandHandler))

def emptyModuleManager : ModuleManager :=
  { modules := [], commandHandlers := [] }

/-- The fold over `module.get_commands().items()` in
`ModuleManager.register_module`: a command already present in the table
is skipped (logged, not raised), otherwise it is appended. -/
def registerCommands (moduleId : String) (cmds : List (String × CommandHandler))
    (acc : List (String × (String × CommandHandler))) :
    List (String × (String × CommandHandler)) :=
  cmds.foldl
    (fun acc c =>
      if (dlookup acc c.1).isSome then acc else acc ++ [(c.1, (moduleId, c.2))])
    acc

/-- `ModuleManager.register_module`: store the module (overwriting a
module with the same id) and fold its commands into the table with the
first-registration-wins policy.  Registration never fails. -/
def registerModule (mgr : ModuleManager) (m : BotModule) : ModuleManager :=
  { modules := dset mgr.modules m.moduleId m,
    commandHandlers := registerCommands m.moduleId m.commands mgr.commandHandlers }

/-- `ModuleManager.get_enabled_modules`: registered modules, in
registration order, with `is_enabled` set. -/
def enabledModules (mgr : ModuleManager) : List BotModule :=
  (mgr.modules.map Prod.snd).filter (fun m => m.isEnabled)

/-- The command marker (`self.command_prefix = "/"`). -/
def commandMarker : String := "/"

/-- `ModuleManager.is_command`: the text starts with `/`. -/
def isCommand (messageText : String) : Bool :=
  strStarts messageText commandMarker

/-- `ModuleManager.parse_command`: strip the `/`, split on whitespace
(Python `str.split()` discards empty chunks), lowercase the command
name; empty content yields `("", [])`. -/
def parseCommand (messageText : String) : String × List String :=
  let content := String.mk (messageText.data.drop commandMarker.length)
  let parts := pySplitWs content
  match parts with
  | [] => ("", [])
  | cmd :: args => (pyLower cmd, args)

/-- The handler-lookup loop of `ModuleManager.process_command`: the
first module in the given order whose own command dict contains the
command, together with that handler. -/
def findCommandHandler (mods : List BotModule) (command : String) :
    Option (BotModule × CommandHandler) :=
  match mods with
  | [] => none
  | m :: rest =>
    match dlookup m.commands command with
    | some h => some (m, h)
    | none => findCommandHandler rest command

/-- Wrap a string in single quotes (for the source's f-string messages). -/
def squote (s : String) : String := "\x27" ++ s ++ "\x27"

/-- `ModuleManager.process_command`: parse; store the command message in
the memory manager (exceptions swallowed); then scan enabled modules in
registration order for the command, run its handler converting a raised
exception to an error string, and fall back to an `Unknown command`
reply when no enabled module holds the command.  Handlers are modelled
as pure functions of the message and arguments. -/
def processCommand (mgr : ModuleManager) (mem : MemoryManager)
    (msg : ConversationMessage) (vsFails : Bool) : Option String × MemoryManager :=
  let parsed := parseCommand msg.content
  let command := parsed.1
  let args := parsed.2
  let mem2 := addMessageState mem msg vsFails
  match findCommandHandler (enabledModules mgr) command with
  | some found =>
    if found.1.isEnabled then
      match found.2 msg args with
      | Except.ok response => (response, mem2)
      | Except.error e =>
        (some ("Error processing command " ++ squote command ++ ": " ++ e), mem2)
    else
      (some ("The module " ++ squote found.1.moduleId ++
        " is currently disabled. Command " ++ squote command ++
        " cannot be processed."), mem2)
  | none => (some ("Unknown command: " ++ command), mem2)

/-- `ModuleManager.find_matching_module`: first enabled module whose
trigger patterns match the message content. -/
def findMatchingModule (mgr : ModuleManager) (msg : ConversationMessage) :
    Option BotModule :=
  (enabledModules mgr).find? (fun m => matchesMessage m msg.content)

/-- `ModuleManager.process_message`: the command path when the text
starts with `/`, else first-match-wins trigger dispatch with handler
exceptions converted to an error string, else `none` for the generative
fallback. -/
def processMessage (mgr : ModuleManager) (mem : MemoryManager)
    (msg : ConversationMessage) (context : List (String × String)) (vsFails : Bool) :
    Option String × MemoryManager :=
  if isCommand msg.content then
    processCommand mgr mem msg vsFails
  else
    match findMatchingModule mgr msg with
    | some m =>
      match m.processMessageFn msg context with
      | Except.ok r => (r, mem)
      | Except.error e => (some ("Error processing message: " ++ e), mem)
    | none => (none, mem)

/-- Replace a module's free-text behaviour (trigger patterns and
`process_message`), leaving its identity, enabled flag and command table
unchanged.  Used to state that command dispatch is independent of
trigger patterns. -/
def overrideFreeText (f : BotModule → List (String → Bool))
    (g : BotModule → ConversationMessage → List (String × String) →
      Except String (Option String)) (m : BotModule) : BotModule :=
  { m with triggerPatterns := f m, processMessageFn := g m }

/-- Apply `overrideFreeText` to every registered module of a manager. -/
def overrideManagerFreeText (mgr : ModuleManager)
    (f : BotModule → List (String → Bool))
    (g : BotModule → ConversationMessage → List (String × String) →
      Except String (Option String)) : ModuleManager :=
  { mgr with modules := mgr.modules.map (fun p => (p.1, overrideFreeText f g p.2)) }

/-- A `Character` from `character.py`.  The open `metadata` dict is
modelled as a string-to-boolean mapping; the only key the engine ever
reads is `is_default`. -/
structure Character where
  characterId : String
  name : String
  systemPrompt : String
  description : String
  greeting : Option String
  farewell : Option String
  avatarUrl : Option String
  metadata : List (String × Bool)
deriving DecidableEq, Repr

/-- State of `CharacterManager`: `_characters` keyed by character id,
`_default_character_id`, and `_conversation_preferences` mapping a
conversation id to a character id.  File persistence (`_save_character`,
`_save_conversation_preferences`) is an external collaborator and is
not modelled. -/
structure CharacterManager where
  characters : List (String × Character)
  defaultCharacterId : Option String
  conversationPreferences : List (String × String)
deriving DecidableEq, Repr

/-- The built-in fallback character created by
`CharacterManager._create_default_character`. -/
def defaultBrainyCharacter : Character :=
  { characterId := "default", name := "Brainy",
    systemPrompt :=
      "You are Brainy, a helpful and friendly AI assistant. " ++
      "You are knowledgeable and can help users with a wide range of tasks. " ++
      "Your tone is friendly, professional, and concise. " ++
      "You always aim to provide accurate information and help users achieve their goals.",
    description := "A helpful and friendly AI assistant.",
    greeting := some ("Hello! I\x27m Brainy, your friendly AI assistant. How can I help you today?"),
    farewell := some "Goodbye! It was nice chatting with you. Feel free to message me anytime!",
    avatarUrl := none,
    metadata := [("is_default", true)] }

/-- `CharacterManager._create_default_character`: install the built-in
character and make it the default. -/
def createDefaultCharacter (st : CharacterManager) : CharacterManager :=
  { st with
    characters := dset st.characters defaultBrainyCharacter.characterId defaultBrainyCharacter,
    defaultCharacterId := some defaultBrainyCharacter.characterId }

/-- `CharacterManager.get_character`: scan the catalog in insertion
order comparing ids case-insensitively. -/
def getCharacter (st : CharacterManager) (characterId : String) : Option Character :=
  (st.characters.find? (fun p => pyLower p.1 = pyLower characterId)).map Prod.snd

/-- `CharacterManager.get_default_character`: self-heal by creating the
built-in character when the default id is unset or dangling, then
return the default entry (the trailing fallback arms are unreachable
after healing). -/
def getDefaultCharacter (st : CharacterManager) : Character × CharacterManager :=
  let healed :=
    match st.defaultCharacterId with
    | none => createDefaultCharacter st
    | some d => if (dlookup st.characters d).isSome then st else createDefaultCharacter st
  match healed.defaultCharacterId with
  | some d =>
    match dlookup healed.characters d with
    | some c => (c, healed)
    | none => (defaultBrainyCharacter, healed)
  | none => (defaultBrainyCharacter, healed)

/-- `CharacterManager.get_character_for_conversation`: follow the
conversation preference when it is truthy and resolves (again
case-insensitively), else fall back to the default character. -/
def getCharacterForConversation (st : CharacterManager) (conversationId : String) :
    Character × CharacterManager :=
  match dlookup st.conversationPreferences conversationId with
  | none => getDefaultCharacter st
  | some characterId =>
    if characterId = "" then getDefaultCharacter st
    else
      match getCharacter st characterId with
      | none => getDefaultCharacter st
      | some c => (c, st)

/-- `CharacterManager.create_character`: reject (returning `None`, no
state change) when the exact id string is already a key of
`_characters`; otherwise build the character and add it. -/
def createCharacter (st : CharacterManager) (characterId name systemPrompt : String)
    (description : String) (greeting farewell avatarUrl : Option String)
    (metadata : List (String × Bool)) : Option Character × CharacterManager :=
  if (dlookup st.characters characterId).isSome then (none, st)
  else
    let character : Character :=
      { characterId := characterId, name := name, systemPrompt := systemPrompt,
        description := description, greeting := greeting, farewell := farewell,
        avatarUrl := avatarUrl, metadata := metadata }
    (some character, { st with characters := dset st.characters characterId character })

/-- `self._default_character_id` read as a string.  In every state
reachable after construction the default id is set; the `none` arm
(empty string) is never exercised under that invariant. -/
def defaultIdStr (st : CharacterManager) : String :=
  match st.defaultCharacterId with
  | some d => d
  | none => ""

/-- `CharacterManager.delete_character`: resolve the id
case-insensitively (`ValueError` when absent), refuse to delete the
default character (`ValueError`, no mutation), otherwise remove the
record and point every conversation preference that referenced it
(case-insensitively) at the default id. -/
def deleteCharacter (st : CharacterManager) (characterId : String) :
    Except String CharacterManager :=
  match getCharacter st characterId with
  | none => Except.error ("Character " ++ squote characterId ++ " not found")
  | some characterToDelete =>
    let actualCharacterId := characterToDelete.characterId
    if st.defaultCharacterId = some actualCharacterId then
      Except.error "Cannot delete the default character"
    else
      Except.ok
        { characters := ddelete st.characters actualCharacterId,
          defaultCharacterId := st.defaultCharacterId,
          conversationPreferences :=
            st.conversationPreferences.map (fun p =>
              if pyLower p.2 = pyLower actualCharacterId then (p.1, defaultIdStr st)
              else p) }

/-- A `Reminder` from `reminder.py` (the dict built in `_set_reminder`);
times are abstracted to `Nat` seconds. -/
structure Reminder where
  userId : String
  conversationId : String
  platform : String
  task : String
  time : Nat
  createdAt : Nat
deriving DecidableEq, Repr

/-- State of `ReminderModule`: `_active_reminders` keyed by user id. -/
structure ReminderState where
  activeReminders : List (String × List Reminder)
deriving DecidableEq, Repr

def emptyReminderState : ReminderState := { activeReminders := [] }

/-- `ReminderModule._set_reminder`: append the reminder to the user's
pending list and schedule `_handle_reminder(reminder, delay)` as an
independent task, with a past-or-zero delay clamped to one second.
The returned reminder/delay pair stands for that scheduled task. -/
def setReminder (st : ReminderState) (userId conversationId platform task : String)
    (reminderTime now : Nat) : ReminderState × Reminder × Nat :=
  let reminder : Reminder :=
    { userId := userId, conversationId := conversationId, platform := platform,
      task := task, time := reminderTime, createdAt := now }
  let existing := (dlookup st.activeReminders userId).getD []
  let st2 : ReminderState :=
    { activeReminders := dset st.activeReminders userId (existing ++ [reminder]) }
  let delay := if reminderTime ≤ now then 1 else reminderTime - now
  (st2, reminder, delay)

/-- `ReminderModule.clear_reminders_command`: empty the invoking user's
pending list and report the count (or report that nothing was pending). -/
def clearRemindersCommand (st : ReminderState) (msg : ConversationMessage) :
    String × ReminderState :=
  let userId := msg.userId.getD ""
  if userId = "" then
    ("⚠️ Error: User information not available. Please try again.", st)
  else
    match dlookup st.activeReminders userId with
    | none => ("You don\x27t have any active reminders to clear.", st)
    | some rs =>
      if rs.isEmpty then
        ("You don\x27t have any active reminders to clear.", st)
      else
        let count := rs.length
        ("✅ Cleared " ++ toString count ++ " reminder" ++
          (if count != 1 then "s" else "") ++ ". Your reminder list is now empty.",
         { activeReminders := dset st.activeReminders userId [] })

/-- A delivery attempt made by the firing path: the
`telegram_adapter.send_reminder(user_id, task)` call. -/
structure DeliveryAttempt where
  userId : String
  task : String
deriving DecidableEq, Repr

/-- `ReminderModule._handle_reminder`, after its sleep, run against the
CURRENT module state: attempt delivery (for the telegram platform the
adapter send is invoked; its success, failure or raised exception —
`sendResult` — is only logged), then drop every pending reminder of the
user with the same task and time.  The source consults
`_active_reminders` only for this removal, never before delivering. -/
def handleReminder (st : ReminderState) (reminder : Reminder)
    (sendResult : Except String Bool) : List DeliveryAttempt × ReminderState :=
  let userId := reminder.userId
  let task := reminder.task
  let attempts : List DeliveryAttempt :=
    if reminder.platform = "telegram" then [{ userId := userId, task := task }] else []
  let st2 :=
    match dlookup st.activeReminders userId with
    | none => st
    | some rs =>
      { activeReminders := dset st.activeReminders userId
          (rs.filter (fun r => r.task != task || r.time != reminder.time)) }
  match sendResult with
  | Except.ok _ => (attempts, st2)
  | Except.error _ => (attempts, st2)

/-- State of `ConversationHistory` (`conversation_history.py`):
`_conversations` keyed by conversation id. -/
abbrev ConversationHistoryState : Type := List (String × List ConversationMessage)

/-- `ConversationHistory.add_message`: append to the conversation's
message list, creating it on first use. -/
def historyAddMessage (h : ConversationHistoryState) (conversationId : String)
    (msg : ConversationMessage) : ConversationHistoryState :=
  match dlookup h conversationId with
  | none => dset h conversationId [msg]
  | some msgs => dset h conversationId (msgs ++ [msg])

/-- The fallback reply produced inside
`AiProviderManager.generate_response` when the provider call raises. -/
def aiProviderFallback : String :=
  "I\x27m sorry, I encountered an error while generating a response. Please try again later."

/-- `AiProviderManager.generate_response`: forward the provider's reply,
catching any raised exception and converting it to the apologetic
fallback string (`providerResult` is the outcome of the delegated
`provider.generate_response` call). -/
def generateResponse (providerResult : Except String String) : String :=
  match providerResult with
  | Except.ok response => response
  | Except.error _ => aiProviderFallback

/-- State owned by `ConversationHandler`: the history provider, the
memory manager and the character manager. -/
structure ConvHandlerState where
  history : ConversationHistoryState
  memory : MemoryManager
  charManager : CharacterManager
deriving DecidableEq, Repr

/-- The `if not conversation_id: conversation_id = f"{platform}:{user_id}"`
derivation at the top of `process_user_message`. -/
def deriveConversationId (conversationIdOpt : Option String)
    (platform userId : String) : String :=
  match conversationIdOpt with
  | some cid => if cid = "" then platform ++ ":" ++ userId else cid
  | none => platform ++ ":" ++ userId

/-- `ConversationHandler.process_user_message` for a non-command
message: derive the conversation id, look up the conversation's
character, append the user message to the history provider and (errors
swallowed) to the memory manager, call the provider gateway through
`AiProviderManager.generate_response`, and append the resulting reply —
fallback string included — to both stores as the assistant turn.
`userMsgId`/`assistantMsgId` stand for the generated message uuids,
`now` for the wall clock, `userVsFails`/`assistantVsFails` for the
vector-index outcomes of the two appends, and `providerResult` for the
gateway outcome. -/
def processUserMessage (st : ConvHandlerState) (userId platform messageText : String)
    (conversationIdOpt : Option String) (userMsgId assistantMsgId : String)
    (now : Nat) (userVsFails assistantVsFails : Bool)
    (providerResult : Except String String) : String × ConvHandlerState :=
  let conversationId := deriveConversationId conversationIdOpt platform userId
  let charRes := getCharacterForConversation st.charManager conversationId
  let userMessage : ConversationMessage :=
    { role := "user", content := messageText, userId := some userId,
      platform := some platform, conversationId := some conversationId,
      vectorId := none, messageId := userMsgId, timestamp := now }
  let history2 := historyAddMessage st.history conversationId userMessage
  let memory2 := addMessageState st.memory userMessage userVsFails
  let aiResponse := generateResponse providerResult
  let assistantMessage : ConversationMessage :=
    { role := "assistant", content := aiResponse, userId := some userId,
      platform := some platform, conversationId := some conversationId,
      vectorId := none, messageId := assistantMsgId, timestamp := now }
  let history3 := historyAddMessage history2 conversationId assistantMessage
  let memory3 := addMessageState memory2 assistantMessage assistantVsFails
  (aiResponse, { history := history3, memory := memory3, charManager := charRes.2 })

/-! Concrete fixtures used by the counterexample and code-bug theorems. -/

/-- A user message in conversation `telegram:alice`. -/
def aliceMessage : ConversationMessage :=
  { role := "user", content := "hello from alice", userId := some "alice",
    platform := some "telegram", conversationId := some "telegram:alice",
    vectorId := none, messageId := "m-alice-1", timestamp := 1 }

/-- A user message in conversation `telegram:bob`. -/
def bobMessage : ConversationMessage :=
  { role := "user", content := "hello from bob", userId := some "bob",
    platform := some "telegram", conversationId := some "telegram:bob",
    vectorId := none, messageId := "m-bob-1", timestamp := 2 }

/-- Memory state holding one message in each of two conversations,
reached by two successful `add_message` calls. -/
def twoConversationState : MemoryManager :=
  addMessageState (addMessageState emptyMemoryManager aliceMessage false) bobMessage false

/-- The reminder scenario: user `u1` schedules `call mom` for time 100
(at time 50) on telegram. -/
def reminderScheduled : ReminderState × Reminder × Nat :=
  setReminder emptyReminderState "u1" "telegram:u1" "telegram" "call mom" 100 50

/-- The `/clear_reminders` message user `u1` then sends. -/
def clearRemindersMessage : ConversationMessage :=
  { role := "user", content := "/clear_reminders", userId := some "u1",
    platform := some "telegram", conversationId := some "telegram:u1",
    vectorId := none, messageId := "m-clear-1", timestamp := 60 }

/-- The reminder state after the bulk clear ran between scheduling and
the fire time. -/
def clearedReminderState : ReminderState :=
  (clearRemindersCommand reminderScheduled.1 clearRemindersMessage).2

/-- An extra character `Alice` (mixed-case id). -/
def aliceCharacter : Character :=
  { characterId := "Alice", name := "Alice", systemPrompt := "You are Alice.",
    description := "", greeting := none, farewell := none, avatarUrl := none,
    metadata := [] }

/-- A catalog with the built-in default character plus `Alice`, and two
conversation preferences (one pointing at `Alice` in lowercase). -/
def sampleCatalog : CharacterManager :=
  { characters := [("default", defaultBrainyCharacter), ("Alice", aliceCharacter)],
    defaultCharacterId := some "default",
    conversationPreferences := [("telegram:bob", "alice"), ("telegram:carol", "default")] }

/-- A module registering only the command `ping` (besides nothing else),
used to exercise the unknown-command path. -/
def pingModule : BotModule :=
  { moduleId := "ping", name := "Ping", isEnabled := true, triggerPatterns := [],
    commands := [("ping", fun _ _ => Except.ok (some "pong"))],
    processMessageFn := fun _ _ => Except.ok none }

/-- A manager with just the ping module registered. -/
def pingManager : ModuleManager := registerModule emptyModuleManager pingModule

/-- A message carrying a command not registered by any module. -/
def frobnicateMessage : ConversationMessage :=
  { role := "user", content := "/frobnicate now", userId := some "alice",
    platform := some "telegram", conversationId := some "telegram:alice",
    vectorId := none, messageId := "m-frob-1", timestamp := 3 }

/-- The `help` handler of the first registered module. -/
def helpHandlerOne : CommandHandler :=
  fun _ _ => Except.ok (some "help from module one")

/-- The `help` handler of the second registered module. -/
def helpHandlerTwo : CommandHandler :=
  fun _ _ => Except.ok (some "help from module two")

/-- First module claiming the command `help`. -/
def moduleOne : BotModule :=
  { moduleId := "one", name := "One", isEnabled := true, triggerPatterns := [],
    commands := [("help", helpHandlerOne)],
    processMessageFn := fun _ _ => Except.ok none }

/-- Second module also claiming the command `help`. -/
def moduleTwo : BotModule :=
  { moduleId := "two", name := "Two", isEnabled := true, triggerPatterns := [],
    commands := [("help", helpHandlerTwo)],
    processMessageFn := fun _ _ => Except.ok none }

/-- A `/help` command message. -/
def helpMessage : ConversationMessage :=
  { role := "user", content := "/help", userId := some "alice",
    platform := some "telegram", conversationId := some "telegram:alice",
    vectorId := none, messageId := "m-help-1", timestamp := 4 }

/-! Helper lemmas about the dict model. -/

theorem dlookup_dset_self {α : Type} (d : List (String × α)) (k : String) (v : α) :
    dlookup (dset d k v) k = some v := by
  induction d with
  | nil => simp [dset, dlookup]
  | cons p rest ih =>
    obtain ⟨k2, v2⟩ := p
    by_cases h : k2 = k
    · simp [dset, dlookup, h]
    · simp [dset, dlookup, h, ih]

theorem dlookup_dset_ne {α : Type} (d : List (String × α)) (k k2 : String) (v : α)
    (h : k2 ≠ k) : dlookup (dset d k v) k2 = dlookup d k2 := by
  induction d with
  | nil => simp [dset, dlookup, Ne.symm h]
  | cons p rest ih =>
    obtain ⟨k3, v3⟩ := p
    by_cases h3 : k3 = k
    · subst h3
      simp [dset, dlookup, Ne.symm h]
    · simp [dset, dlookup, h3, ih]

theorem dlookup_append {α : Type} (d1 d2 : List (String × α)) (k : String) :
    dlookup (d1 ++ d2) k =
      match dlookup d1 k with
      | some v => some v
      | none => dlookup d2 k := by
  induction d1 with
  | nil => simp [dlookup]
  | cons p rest ih =>
    obtain ⟨k2, v2⟩ := p
    by_cases h : k2 = k <;> simp [dlookup, h, ih]

theorem dlookup_ddelete_self {α : Type} (d : List (String × α)) (k : String) :
    dlookup (ddelete d k) k = none := by
  induction d with
  | nil => rfl
  | cons p rest ih =>
    obtain ⟨k2, v2⟩ := p
    by_cases h : k2 = k
    · simp [ddelete, h, ih]
    · simp [ddelete, dlookup, h, ih]

theorem dlookup_ddelete_ne {α : Type} (d : List (String × α)) (k k2 : String)
    (h : k2 ≠ k) : dlookup (ddelete d k) k2 = dlookup d k2 := by
  induction d with
  | nil => rfl
  | cons p rest ih =>
    obtain ⟨k3, v3⟩ := p
    by_cases h3 : k3 = k
    · subst h3
      simp [ddelete, dlookup, Ne.symm h, ih]
    · simp [ddelete, dlookup, h3, ih]

theorem mem_snd_of_dlookup {α : Type} (d : List (String × α)) (k : String) (v : α)
    (h : dlookup d k = some v) : v ∈ d.map Prod.snd := by
  induction d with
  | nil => simp [dlookup] at h
  | cons p rest ih =>
    obtain ⟨k2, v2⟩ := p
    by_cases h2 : k2 = k
    · simp [dlookup, h2] at h
      simp [h]
    · simp [dlookup, h2] at h
      simp [ih h]

theorem mem_insertByTs (a x : ConversationMessage) (l : List ConversationMessage) :
    a ∈ insertByTs x l ↔ a = x ∨ a ∈ l := by
  induction l with
  | nil => simp [insertByTs]
  | cons y ys ih =>
    by_cases h : y.timestamp ≤ x.timestamp
    · simp only [insertByTs, if_pos h, List.mem_cons, ih]
      tauto
    · simp only [insertByTs, if_neg h, List.mem_cons]

theorem mem_foldl_insertByTs (a : ConversationMessage)
    (l acc : List ConversationMessage) :
    a ∈ l.foldl (fun acc m => insertByTs m acc) acc ↔ a ∈ acc ∨ a ∈ l := by
  induction l generalizing acc with
  | nil => simp
  | cons y ys ih =>
    simp [List.foldl_cons, ih, mem_insertByTs]
    tauto

theorem mem_sortByTimestamp (a : ConversationMessage) (l : List ConversationMessage) :
    a ∈ sortByTimestamp l ↔ a ∈ l := by
  simp [sortByTimestamp, mem_foldl_insertByTs]

theorem dlookup_historyAddMessage_self (h : ConversationHistoryState)
    (conversationId : String) (msg : ConversationMessage) :
    dlookup (historyAddMessage h conversationId msg) conversationId =
      some ((dlookup h conversationId).getD [] ++ [msg]) := by
  unfold historyAddMessage
  cases hh : dlookup h conversationId <;> simp [hh, dlookup_dset_self]

/-- `add_message` succeeds whenever a conversation id is derivable, and
files the message id at the end of that conversation's index. -/
theorem addMessage_ok (st : MemoryManager) (msg : ConversationMessage)
    (cid : String) (vsFails : Bool) (h : conversationIdOf msg = some cid) :
    ∃ st2, addMessage st msg vsFails = Except.ok (msg.messageId, st2) ∧
      dlookup st2.conversationMessages cid =
        some ((dlookup st.conversationMessages cid).getD [] ++ [msg.messageId]) ∧
      (dlookup st2.messages msg.messageId = some msg ∨
        dlookup st2.messages msg.messageId =
          some { msg with vectorId := some msg.messageId }) := by
  unfold addMessage
  rw [h]
  dsimp only
  by_cases hrole : msg.role = "user" ∨ msg.role = "assistant"
  · rw [if_pos hrole]
    cases vsFails
    · cases hc : dlookup st.conversationMessages cid <;>
        exact ⟨_, rfl, by simp [dlookup_dset_self],
          Or.inr (by simp [dlookup_dset_self])⟩
    · cases hc : dlookup st.conversationMessages cid <;>
        exact ⟨_, rfl, by simp [dlookup_dset_self],
          Or.inl (by simp [dlookup_dset_self])⟩
  · rw [if_neg hrole]
    cases hc : dlookup st.conversationMessages cid <;>
      exact ⟨_, rfl, by simp [dlookup_dset_self],
        Or.inl (by simp [dlookup_dset_self])⟩

theorem dlookup_registerCommands (moduleId : String)
    (cmds : List (String × CommandHandler))
    (acc : List (String × (String × CommandHandler))) (c : String) :
    dlookup (registerCommands moduleId cmds acc) c =
      match dlookup acc c with
      | some v => some v
      | none => (dlookup cmds c).map (fun h => (moduleId, h)) := by
  induction cmds generalizing acc with
  | nil => cases hacc : dlookup acc c <;> simp [registerCommands, dlookup, hacc]
  | cons p rest ih =>
    obtain ⟨c0, h0⟩ := p
    have step : registerCommands moduleId ((c0, h0) :: rest) acc =
        registerCommands moduleId rest
          (if (dlookup acc c0).isSome then acc else acc ++ [(c0, (moduleId, h0))]) := by
      simp [registerCommands]
    rw [step, ih]
    by_cases hc0 : c0 = c
    · subst hc0
      cases hacc : dlookup acc c0 with
      | some v => simp [hacc, dlookup]
      | none =>
        simp only [hacc, Option.isSome_none, Bool.false_eq_true, if_false]
        rw [dlookup_append]
        simp [hacc, dlookup]
    · cases hacc : dlookup acc c with
      | some v =>
        cases hacc0 : dlookup acc c0 with
        | some v0 => simp [hacc, hacc0, dlookup, hc0]
        | none =>
          simp only [hacc0, Option.isSome_none, Bool.false_eq_true, if_false]
          rw [dlookup_append]
          simp [hacc, dlookup, hc0]
      | none =>
        cases hacc0 : dlookup acc c0 with
        | some v0 => simp [hacc, hacc0, dlookup, hc0]
        | none =>
          simp only [hacc0, Option.isSome_none, Bool.false_eq_true, if_false]
          rw [dlookup_append]
          simp [hacc, dlookup, hc0]

theorem findCommandHandler_eq_none (mods : List BotModule) (c : String)
    (h : ∀ m ∈ mods, dlookup m.commands c = none) :
    findCommandHandler mods c = none := by
  induction mods with
  | nil => rfl
  | cons m rest ih =>
    have hm : dlookup m.commands c = none := h m (List.mem_cons_self m rest)
    have hrest : ∀ m2 ∈ rest, dlookup m2.commands c = none :=
      fun m2 hm2 => h m2 (List.mem_cons_of_mem m hm2)
    simp [findCommandHandler, hm, ih hrest]

/-- `process_command` updates the memory manager by exactly the
swallowed `add_message` call, whatever the module set does. -/
theorem processCommand_snd (mgr : ModuleManager) (mem : MemoryManager)
    (msg : ConversationMessage) (vsFails : Bool) :
    (processCommand mgr mem msg vsFails).2 = addMessageState mem msg vsFails := by
  unfold processCommand
  dsimp only
  cases hf : findCommandHandler (enabledModules mgr) (parseCommand msg.content).1 with
  | none => rfl
  | some found =>
    by_cases he : found.1.isEnabled = true
    · cases hr : found.2 msg (parseCommand msg.content).2 <;>
        simp [he, hr]
    · simp [he]

theorem overrideFreeText_commands (f : BotModule → List (String → Bool))
    (g : BotModule → ConversationMessage → List (String × String) →
      Except String (Option String)) (m : BotModule) :
    (overrideFreeText f g m).commands = m.commands := rfl

theorem enabledModules_override (mgr : ModuleManager)
    (f : BotModule → List (String → Bool))
    (g : BotModule → ConversationMessage → List (String × String) →
      Except String (Option String)) :
    enabledModules (overrideManagerFreeText mgr f g) =
      (enabledModules mgr).map (overrideFreeText f g) := by
  unfold enabledModules overrideManagerFreeText
  dsimp only
  induction mgr.modules with
  | nil => rfl
  | cons p rest ih =>
    obtain ⟨k, m⟩ := p
    simp only [List.map_map] at ih ⊢
    simp only [List.map_cons, List.filter_cons, Function.comp_apply]
    by_cases hm : m.isEnabled = true
    · simp [show (overrideFreeText f g m).isEnabled = m.isEnabled from rfl, hm, ih]
    · simp [show (overrideFreeText f g m).isEnabled = m.isEnabled from rfl, hm, ih]

theorem findCommandHandler_map_override (mods : List BotModule) (c : String)
    (f : BotModule → List (String → Bool))
    (g : BotModule → ConversationMessage → List (String × String) →
      Except String (Option String)) :
    findCommandHandler (mods.map (overrideFreeText f g)) c =
      (findCommandHandler mods c).map (fun x => (overrideFreeText f g x.1, x.2)) := by
  induction mods with
  | nil => rfl
  | cons m rest ih =>
    cases hm : dlookup m.commands c with
    | some h => simp [findCommandHandler, overrideFreeText_commands, hm]
    | none => simp [findCommandHandler, overrideFreeText_commands, hm, ih]

/-- Command dispatch is blind to trigger patterns and free-text
behaviour: replacing them in every module leaves `process_command`
unchanged. -/
theorem processCommand_override (mgr : ModuleManager) (mem : MemoryManager)
    (msg : ConversationMessage) (vsFails : Bool)
    (f : BotModule → List (String → Bool))
    (g : BotModule → ConversationMessage → List (String × String) →
      Except String (Option String)) :
    processCommand (overrideManagerFreeText mgr f g) mem msg vsFails =
      processCommand mgr mem msg vsFails := by
  unfold processCommand
  dsimp only
  rw [enabledModules_override, findCommandHandler_map_override]
  cases hf : findCommandHandler (enabledModules mgr) (parseCommand msg.content).1 <;> rfl

/-! Claim theorems. -/

/-- C1: the claim says that when a bulk clear removed a reminder before
its fire time, the firing path first verifies the reminder is still in
the pending list and only attempts delivery if it is.  The code has no
such check: in the concrete run below, user `u1` schedules a telegram
reminder, `/clear_reminders` empties the pending list, and the deferred
task nevertheless attempts delivery through the messaging adapter when
it fires. -/
theorem reminder_delivered_after_clear :
    dlookup clearedReminderState.activeReminders "u1" = some [] ∧
    (handleReminder clearedReminderState reminderScheduled.2.1 (Except.ok true)).1 =
      [{ userId := "u1", task := "call mom" }] := by
  exact ⟨rfl, rfl⟩

/-- C2: the claim says clearing conversation `c1` leaves the stored log
of any other conversation `c2` unchanged.  The code sets
`self._messages = {}`, destroying every conversation's message objects:
below, `telegram:bob` holds one message, yet after clearing
`telegram:alice` its history comes back empty. -/
theorem clearConversation_wipes_sibling_history :
    getConversationHistory twoConversationState "telegram:bob" none =
      [{ bobMessage with vectorId := some "m-bob-1" }] ∧
    getConversationHistory (clearConversation twoConversationState "telegram:alice" false)
      "telegram:bob" none = [] := by
  exact ⟨rfl, rfl⟩

/-- C9: when the Generative Provider Gateway raises, the pipeline
catches the exception, replies with the apologetic fallback string, and
still appends that string to the conversation history as the
assistant's turn. -/
theorem gatewayFailure_fallback_appended (st : ConvHandlerState)
    (userId platform messageText : String) (conversationIdOpt : Option String)
    (userMsgId assistantMsgId : String) (now : Nat)
    (userVsFails assistantVsFails : Bool) (e : String) :
    (processUserMessage st userId platform messageText conversationIdOpt
      userMsgId assistantMsgId now userVsFails assistantVsFails
      (Except.error e)).1 = aiProviderFallback ∧
    ((dlookup (processUserMessage st userId platform messageText conversationIdOpt
        userMsgId assistantMsgId now userVsFails assistantVsFails
        (Except.error e)).2.history
        (deriveConversationId conversationIdOpt platform userId)).getD []).getLast? =
      some { role := "assistant", content := aiProviderFallback,
             userId := some userId, platform := some platform,
             conversationId := some (deriveConversationId conversationIdOpt platform userId),
             vectorId := none, messageId := assistantMsgId, timestamp := now } := by
  refine ⟨rfl, ?_⟩
  unfold processUserMessage
  dsimp only
  rw [dlookup_historyAddMessage_self]
  simp only [Option.getD_some]
  rw [List.getLast?_append_cons]
  rfl

/-- C3: a message starting with the command marker `/` always takes the
command path, and its dispatch result is independent of every module's
trigger patterns and free-text handler — the message is never matched
against them even if its content would match. -/
theorem commandPath_ignores_triggers (mgr : ModuleManager) (mem : MemoryManager)
    (msg : ConversationMessage) (context : List (String × String)) (vsFails : Bool)
    (h : isCommand msg.content = true) :
    processMessage mgr mem msg context vsFails = processCommand mgr mem msg vsFails ∧
    ∀ f g, processMessage (overrideManagerFreeText mgr f g) mem msg context vsFails =
      processMessage mgr mem msg context vsFails := by
  have h1 : ∀ mgr2 : ModuleManager,
      processMessage mgr2 mem msg context vsFails = processCommand mgr2 mem msg vsFails := by
    intro mgr2
    unfold processMessage
    rw [if_pos h]
  refine ⟨h1 mgr, ?_⟩
  intro f g
  rw [h1, h1, processCommand_override]

/-- C3 witness: the concrete command message `/frobnicate now` against
the ping manager takes the command path. -/
theorem commandPath_ignores_triggers_witness :
    processMessage pingManager emptyMemoryManager frobnicateMessage [] false =
      processCommand pingManager emptyMemoryManager frobnicateMessage false :=
  (commandPath_ignores_triggers pingManager emptyMemoryManager frobnicateMessage
    [] false rfl).1

/-- C4 counterexample: the claim says an unknown command makes dispatch
return `None` so the Orchestrator proceeds to the generative fallback.
On the concrete unknown command `/frobnicate now` the dispatcher
instead returns the reply string `Unknown command: frobnicate`. -/
theorem unknownCommand_reply_not_none :
    (processMessage pingManager emptyMemoryManager frobnicateMessage [] false).1 ≠ none ∧
    (processMessage pingManager emptyMemoryManager frobnicateMessage [] false).1 =
      some "Unknown command: frobnicate" := by
  constructor
  · rw [show (processMessage pingManager emptyMemoryManager frobnicateMessage [] false).1 =
      some "Unknown command: frobnicate" from rfl]
    simp
  · rfl

/-- C4 amended: for a command message whose parsed command name is not
registered by any enabled module, dispatch returns the reply string
`Unknown command: <name>` (never `None`), so the Orchestrator sends
that string instead of proceeding to the generative fallback. -/
theorem unknownCommand_returns_error_string (mgr : ModuleManager)
    (mem : MemoryManager) (msg : ConversationMessage)
    (context : List (String × String)) (vsFails : Bool)
    (h : isCommand msg.content = true)
    (hnone : ∀ m ∈ enabledModules mgr,
      dlookup m.commands (parseCommand msg.content).1 = none) :
    (processMessage mgr mem msg context vsFails).1 =
      some ("Unknown command: " ++ (parseCommand msg.content).1) := by
  unfold processMessage
  rw [if_pos h]
  unfold processCommand
  dsimp only
  rw [findCommandHandler_eq_none _ _ hnone]

/-- C4 witness: the amended statement applied to the concrete unknown
command `/frobnicate now`. -/
theorem unknownCommand_returns_error_string_witness :
    (processMessage pingManager emptyMemoryManager frobnicateMessage [] false).1 =
      some ("Unknown command: " ++ (parseCommand frobnicateMessage.content).1) := by
  apply unknownCommand_returns_error_string
  · rfl
  · intro m hm
    have h0 : enabledModules pingManager = [pingModule] := rfl
    rw [h0, List.mem_singleton] at hm
    subst hm
    rfl

/-- C7: when two registered modules both claim a command name, the
derived command table keeps the first module's handler (the collision
is skipped, not raised), and dispatching that command runs the handler
of the module registered first — the later module's handler is never
invoked. -/
theorem commandCollision_firstRegistrationWins (m1 m2 : BotModule) (c : String)
    (h1 h2 : CommandHandler) (mem : MemoryManager) (msg : ConversationMessage)
    (vsFails : Bool) (hen : m1.isEnabled = true) (hid : m1.moduleId ≠ m2.moduleId)
    (hc1 : dlookup m1.commands c = some h1) (_hc2 : dlookup m2.commands c = some h2) :
    dlookup (registerModule (registerModule emptyModuleManager m1) m2).commandHandlers c =
      some (m1.moduleId, h1) ∧
    ((parseCommand msg.content).1 = c →
      (processCommand (registerModule (registerModule emptyModuleManager m1) m2)
        mem msg vsFails).1 =
        match h1 msg (parseCommand msg.content).2 with
        | Except.ok r => r
        | Except.error e =>
          some ("Error processing command " ++ squote c ++ ": " ++ e)) := by
  have ha1 : dlookup (registerCommands m1.moduleId m1.commands []) c =
      some (m1.moduleId, h1) := by
    rw [dlookup_registerCommands]
    simp [dlookup, hc1]
  have ha2 : dlookup (registerCommands m2.moduleId m2.commands
      (registerCommands m1.moduleId m1.commands [])) c = some (m1.moduleId, h1) := by
    rw [dlookup_registerCommands, ha1]
  constructor
  · exact ha2
  · intro hp
    have hmods : (registerModule (registerModule emptyModuleManager m1) m2).modules =
        [(m1.moduleId, m1), (m2.moduleId, m2)] := by
      simp [registerModule, emptyModuleManager, dset, hid]
    have hmenab : enabledModules (registerModule (registerModule emptyModuleManager m1) m2) =
        m1 :: List.filter (fun m => m.isEnabled) [m2] := by
      unfold enabledModules
      rw [hmods]
      simp [hen]
    have hfind : findCommandHandler
        (enabledModules (registerModule (registerModule emptyModuleManager m1) m2)) c =
        some (m1, h1) := by
      rw [hmenab]
      simp [findCommandHandler, hc1]
    unfold processCommand
    dsimp only
    rw [hp, hfind]
    dsimp only
    rw [if_pos hen]
    cases hr : h1 msg (parseCommand msg.content).2 <;> simp [hr]

/-- C7 witness: two concrete modules both registering `help`; the reply
to `/help` is the first module's. -/
theorem commandCollision_firstRegistrationWins_witness :
    (processCommand (registerModule (registerModule emptyModuleManager moduleOne) moduleTwo)
      emptyMemoryManager helpMessage false).1 = some "help from module one" :=
  (commandCollision_firstRegistrationWins moduleOne moduleTwo "help"
    helpHandlerOne helpHandlerTwo emptyMemoryManager helpMessage false rfl
    (by decide) rfl rfl).2 rfl

/-- C5 counterexample: the claim says creating a character whose id
matches an existing one up to letter case fails and mutates nothing.
`Alice` exists, yet creating `ALICE` returns a character and changes
the catalog — the duplicate check is case-sensitive. -/
theorem createCharacter_case_cex :
    getCharacter sampleCatalog "ALICE" ≠ none ∧
    (createCharacter sampleCatalog "ALICE" "Alice Two" "You are Alice Two."
      "" none none none []).1 ≠ none ∧
    (createCharacter sampleCatalog "ALICE" "Alice Two" "You are Alice Two."
      "" none none none []).2 ≠ sampleCatalog := by
  refine ⟨?_, ?_, ?_⟩ <;> decide

/-- C5 amended: general character lookup is case-insensitive, but the
duplicate check in `create_character` is exact: creation fails (returns
`None` with no state mutation) precisely when the exact id string is
already a key, and an id differing only in case creates a new
character. -/
theorem createCharacter_exact_duplicate_policy (st : CharacterManager)
    (characterId name systemPrompt description : String)
    (greeting farewell avatarUrl : Option String)
    (metadata : List (String × Bool)) :
    ((dlookup st.characters characterId).isSome = true →
      createCharacter st characterId name systemPrompt description
        greeting farewell avatarUrl metadata = (none, st)) ∧
    (dlookup st.characters characterId = none →
      ∃ c : Character, c.characterId = characterId ∧ c.name = name ∧
        c.systemPrompt = systemPrompt ∧
        createCharacter st characterId name systemPrompt description
          greeting farewell avatarUrl metadata =
          (some c, { st with characters := dset st.characters characterId c })) ∧
    (∀ c1 c2 : String, pyLower c1 = pyLower c2 →
      getCharacter st c1 = getCharacter st c2) := by
  refine ⟨?_, ?_, ?_⟩
  · intro h
    unfold createCharacter
    rw [if_pos h]
  · intro h
    refine ⟨{ characterId := characterId, name := name,
              systemPrompt := systemPrompt, description := description,
              greeting := greeting, farewell := farewell,
              avatarUrl := avatarUrl, metadata := metadata },
      rfl, rfl, rfl, ?_⟩
    unfold createCharacter
    rw [if_neg (by simp [h])]
  · intro c1 c2 h
    unfold getCharacter
    rw [h]

/-- C5 witness: the exact duplicate `Alice` is rejected without
mutation, and lookups for `ALICE` and `alice` agree. -/
theorem createCharacter_exact_duplicate_policy_witness :
    createCharacter sampleCatalog "Alice" "X" "Y" "" none none none [] =
      (none, sampleCatalog) ∧
    getCharacter sampleCatalog "ALICE" = getCharacter sampleCatalog "alice" :=
  ⟨(createCharacter_exact_duplicate_policy sampleCatalog "Alice" "X" "Y" ""
      none none none []).1 (by decide),
   (createCharacter_exact_duplicate_policy sampleCatalog "Alice" "X" "Y" ""
      none none none []).2.2 "ALICE" "alice" (by decide)⟩

theorem getDefaultCharacter_resolves (st : CharacterManager) (d : String)
    (c : Character) (hd : st.defaultCharacterId = some d)
    (hc : dlookup st.characters d = some c) :
    getDefaultCharacter st = (c, st) := by
  unfold getDefaultCharacter
  rw [hd]
  dsimp only
  rw [hc]
  simp [hd, hc]

theorem getCharacter_mem (st : CharacterManager) (x : String) (c : Character)
    (h : getCharacter st x = some c) : c ∈ st.characters.map Prod.snd := by
  unfold getCharacter at h
  cases hf : st.characters.find? (fun p => pyLower p.1 = pyLower x) with
  | none => rw [hf] at h; simp at h
  | some p =>
    rw [hf] at h
    simp at h
    subst h
    exact List.mem_map_of_mem Prod.snd (List.mem_of_find?_eq_some hf)

/-- Whenever the default id resolves, `get_character_for_conversation`
returns a character that exists in the catalog (no dangling result). -/
theorem getCharacterForConversation_mem (st : CharacterManager) (d : String)
    (cdef : Character) (hd : st.defaultCharacterId = some d)
    (hc : dlookup st.characters d = some cdef) (conv : String) :
    (getCharacterForConversation st conv).1 ∈ st.characters.map Prod.snd := by
  have hdef : getDefaultCharacter st = (cdef, st) :=
    getDefaultCharacter_resolves st d cdef hd hc
  have hdefmem : cdef ∈ st.characters.map Prod.snd := mem_snd_of_dlookup _ _ _ hc
  unfold getCharacterForConversation
  cases hpref : dlookup st.conversationPreferences conv with
  | none => simpa [hdef] using hdefmem
  | some cid =>
    by_cases hcid : cid = ""
    · simpa [hcid, hdef] using hdefmem
    · cases hg : getCharacter st cid with
      | none => simpa [hcid, hg, hdef] using hdefmem
      | some c2 =>
        simpa [hcid, hg] using getCharacter_mem st cid c2 hg

/-- C6: deleting the (case-insensitively resolved) default character
always fails with the `CannotDeleteDefault` error and mutates nothing;
deleting any existing non-default character succeeds, removes its
record, repoints every conversation preference that referenced it at
the default id, and afterwards `get_character_for_conversation` always
returns a character present in the catalog (never a dangling id). -/
theorem deleteCharacter_default_and_reassign (st : CharacterManager) (d : String)
    (cdef : Character) (hd : st.defaultCharacterId = some d)
    (hdc : dlookup st.characters d = some cdef) :
    (∀ cid c, getCharacter st cid = some c → c.characterId = d →
      deleteCharacter st cid = Except.error "Cannot delete the default character") ∧
    (∀ cid c, getCharacter st cid = some c → c.characterId ≠ d →
      ∃ st2, deleteCharacter st cid = Except.ok st2 ∧
        dlookup st2.characters c.characterId = none ∧
        dlookup st2.characters d = some cdef ∧
        st2.conversationPreferences = st.conversationPreferences.map (fun p =>
          if pyLower p.2 = pyLower c.characterId then (p.1, d) else p) ∧
        ∀ conv, (getCharacterForConversation st2 conv).1 ∈
          st2.characters.map Prod.snd) := by
  constructor
  · intro cid c hg hcd
    unfold deleteCharacter
    rw [hg]
    dsimp only
    rw [if_pos (by rw [hcd]; exact hd)]
  · intro cid c hg hcd
    unfold deleteCharacter
    rw [hg]
    dsimp only
    rw [if_neg (by
      rw [hd]
      intro heq
      exact hcd (Option.some.inj heq).symm)]
    have hne : d ≠ c.characterId := Ne.symm hcd
    refine ⟨_, rfl, dlookup_ddelete_self _ _, ?_, ?_, ?_⟩
    · rw [dlookup_ddelete_ne _ _ _ hne]
      exact hdc
    · simp only [defaultIdStr, hd]
    · intro conv
      apply getCharacterForConversation_mem _ d cdef
      · exact hd
      · rw [dlookup_ddelete_ne _ _ _ hne]
        exact hdc

/-- C6 witness: in the sample catalog, deleting `DEFAULT` fails with
the error, and deleting `Alice` succeeds and removes its record. -/
theorem deleteCharacter_default_and_reassign_witness :
    deleteCharacter sampleCatalog "DEFAULT" =
      Except.error "Cannot delete the default character" ∧
    ∃ st2, deleteCharacter sampleCatalog "Alice" = Except.ok st2 ∧
      dlookup st2.characters "Alice" = none := by
  have h := deleteCharacter_default_and_reassign sampleCatalog "default"
    defaultBrainyCharacter rfl rfl
  constructor
  · exact h.1 "DEFAULT" defaultBrainyCharacter (by decide) rfl
  · obtain ⟨st2, h1, h2, _, _, _⟩ := h.2 "Alice" aliceCharacter (by decide) (by decide)
    exact ⟨st2, h1, h2⟩

theorem mem_getConversationHistory (st : MemoryManager) (cid mid : String)
    (msg : ConversationMessage) (ids : List String)
    (hconv : dlookup st.conversationMessages cid = some ids)
    (hmid : mid ∈ ids) (hmsg : dlookup st.messages mid = some msg) :
    msg ∈ getConversationHistory st cid none := by
  unfold getConversationHistory
  rw [hconv]
  dsimp only
  rw [mem_sortByTimestamp]
  exact List.mem_filterMap.mpr ⟨mid, hmid, hmsg⟩

/-- C8: semantic-index failures never reach the primary paths.  If the
vector-store add raises, `add_message` still succeeds, returns the
message id, and the message is present in the ordered log (with the
index contents untouched); if the vector-store query raises,
`search_similar_messages` returns the empty list. -/
theorem indexFailure_isolated (st : MemoryManager) (msg : ConversationMessage)
    (cid e : String) (now : Nat) (freshId : String)
    (h : conversationIdOf msg = some cid) :
    (∃ st2, addMessage st msg true = Except.ok (msg.messageId, st2) ∧
      dlookup st2.messages msg.messageId = some msg ∧
      dlookup st2.conversationMessages cid =
        some ((dlookup st.conversationMessages cid).getD [] ++ [msg.messageId]) ∧
      st2.vectorStore = st.vectorStore ∧
      msg ∈ getConversationHistory st2 cid none) ∧
    searchSimilarMessages st (Except.error e) now freshId = [] := by
  refine ⟨?_, rfl⟩
  unfold addMessage
  rw [h]
  dsimp only
  have hmem : ∀ st2 : MemoryManager, ∀ ids0 : List String,
      dlookup st2.conversationMessages cid = some (ids0 ++ [msg.messageId]) →
      dlookup st2.messages msg.messageId = some msg →
      msg ∈ getConversationHistory st2 cid none := by
    intro st2 ids0 h1 h2
    exact mem_getConversationHistory st2 cid msg.messageId msg _ h1
      (List.mem_append_right ids0 (List.mem_singleton.mpr rfl)) h2
  by_cases hrole : msg.role = "user" ∨ msg.role = "assistant"
  · rw [if_pos hrole, if_pos rfl]
    cases hcv : dlookup st.conversationMessages cid with
    | none =>
      refine ⟨_, rfl, by simp [dlookup_dset_self], by simp [dlookup_dset_self],
        rfl, ?_⟩
      exact hmem _ [] (by simp [dlookup_dset_self]) (by simp [dlookup_dset_self])
    | some ids =>
      refine ⟨_, rfl, by simp [dlookup_dset_self], by simp [dlookup_dset_self],
        rfl, ?_⟩
      exact hmem _ ids (by simp [dlookup_dset_self]) (by simp [dlookup_dset_self])
  · rw [if_neg hrole]
    cases hcv : dlookup st.conversationMessages cid with
    | none =>
      refine ⟨_, rfl, by simp [dlookup_dset_self], by simp [dlookup_dset_self],
        rfl, ?_⟩
      exact hmem _ [] (by simp [dlookup_dset_self]) (by simp [dlookup_dset_self])
    | some ids =>
      refine ⟨_, rfl, by simp [dlookup_dset_self], by simp [dlookup_dset_self],
        rfl, ?_⟩
      exact hmem _ ids (by simp [dlookup_dset_self]) (by simp [dlookup_dset_self])

/-- C8 witness: a concrete append with a failing index still lands in
the log, and a raising query yields the empty result. -/
theorem indexFailure_isolated_witness :
    (∃ st2, addMessage emptyMemoryManager aliceMessage true =
        Except.ok ("m-alice-1", st2) ∧
      aliceMessage ∈ getConversationHistory st2 "telegram:alice" none) ∧
    searchSimilarMessages emptyMemoryManager (Except.error "index down") 0 "f" = [] := by
  obtain ⟨⟨st2, h1, h2, h3, h4, h5⟩, h6⟩ := indexFailure_isolated emptyMemoryManager
    aliceMessage "telegram:alice" "index down" 0 "f" (by decide)
  exact ⟨⟨st2, h1, h5⟩, h6⟩

/-- C10: dispatching any command message appends it to the memory
manager before the handler lookup — the resulting memory state is the
same whatever modules are registered, so the side effect happens also
for unknown commands and failing handlers — and a user-role command
message is stored in the ordered log and (index available) in the
semantic index. -/
theorem commandMessage_logged_and_indexed (mgr : ModuleManager)
    (mem : MemoryManager) (msg : ConversationMessage) (vs : Bool) (cid : String)
    (hrole : msg.role = "user") (h : conversationIdOf msg = some cid) :
    dlookup (processCommand mgr mem msg vs).2.conversationMessages cid =
      some ((dlookup mem.conversationMessages cid).getD [] ++ [msg.messageId]) ∧
    (vs = false →
      dlookup (processCommand mgr mem msg vs).2.messages msg.messageId =
        some { msg with vectorId := some msg.messageId } ∧
      (processCommand mgr mem msg vs).2.vectorStore = mem.vectorStore ++
        [{ docId := msg.messageId, text := msg.content, conversationId := cid,
           role := msg.role, userId := msg.userId, platform := msg.platform,
           timestamp := msg.timestamp }]) ∧
    (processCommand mgr mem msg vs).2 = (processCommand emptyModuleManager mem msg vs).2 := by
  rw [processCommand_snd, processCommand_snd]
  refine ⟨?_, ?_, rfl⟩
  · unfold addMessageState
    obtain ⟨st2, heq, hconv, hmsgs⟩ := addMessage_ok mem msg cid vs h
    rw [heq]
    exact hconv
  · intro hvs
    subst hvs
    unfold addMessageState addMessage
    rw [h]
    dsimp only
    rw [if_pos (Or.inl hrole)]
    rw [if_neg (by simp)]
    exact ⟨dlookup_dset_self _ _ _, rfl⟩

/-- C10 witness: the unknown command `/frobnicate now` is nevertheless
appended to the log and to the semantic index. -/
theorem commandMessage_logged_and_indexed_witness :
    dlookup (processCommand pingManager emptyMemoryManager frobnicateMessage
      false).2.conversationMessages "telegram:alice" = some ["m-frob-1"] ∧
    (processCommand pingManager emptyMemoryManager frobnicateMessage
      false).2.vectorStore =
      [{ docId := "m-frob-1", text := "/frobnicate now",
         conversationId := "telegram:alice", role := "user",
         userId := some "alice", platform := some "telegram", timestamp := 3 }] := by
  obtain ⟨h1, h2, h3⟩ := commandMessage_logged_and_indexed pingManager
    emptyMemoryManager frobnicateMessage false "telegram:alice" rfl (by decide)
  exact ⟨h1, (h2 rfl).2⟩

end Brainy
